import Mathlib

/-!
Verification of the airflowctl virtual-environment lifecycle engine.

We give a shallow embedding, in Lean, of the core functions of the
repository:

* `airflowctl/utils/install_airflow.py`: `is_airflow_installed`,
  `install_airflow`, `_get_major_minor_version`;
* `airflowctl/modes/virtualenv.py`: `verify_or_create_venv`,
  `create_virtualenv_with_specific_python_version`, the log-streaming loop of
  `VirtualenvMode.logs`, `VirtualenvMode.stop` and
  `VirtualenvMode._terminate_process_tree`.

Filesystem and process effects are made explicit: the relevant parts of the
world (which files exist, what the installed application reports as its
version, whether external commands succeed) are fields of explicit state
records, and the side effects a call performs are returned as lists of
events.  Python `os.getenv` results are modelled as `Option String`, with
Python string truthiness made explicit.
-/

/-- Python truthiness of an `os.getenv` result: `None` and the empty string
are falsy, every other string is truthy. -/
def truthy : Option String → Bool
  | none => false
  | some s => !(s == "")

/-- The three environment-variable configuration knobs read by
`install_airflow` (`AIRFLOWCTL_CONSTRAINTS`, `AIRFLOWCTL_PIP_FLAGS`,
`AIRFLOWCTL_SKIP_CONSTRAINTS`). -/
structure InstallEnv where
  constraints : Option String
  pipFlags : Option String
  skipConstraints : Option String
deriving DecidableEq

/-- The part of the world observed and mutated by `install_airflow`
(file `airflowctl/utils/install_airflow.py`). -/
structure InstallWorld where
  /-- `os.path.exists(os.path.join(venv_path, "bin", "airflow"))` -/
  venvBinAirflow : Bool
  /-- stripped stdout of running `<venv>/bin/airflow version` -/
  reportedVersion : String
  /-- `os.path.exists(os.path.join(venv_path, "bin", "python"))` -/
  venvBinPython : Bool
  /-- `(project_path / "airflow.db").exists()` -/
  airflowDb : Bool
  /-- `Path(version).exists()`: the requested version designates a local path -/
  versionIsLocalPath : Bool
  /-- exit status of the assembled shell install pipeline, when run -/
  pipelineSucceeds : Bool
  env : InstallEnv
deriving DecidableEq

/-- `is_airflow_installed` (install_airflow.py lines 37-59).  Returns the
boolean result together with the post-state of the project's `airflow.db`
file: on a version mismatch the file is deleted (`airflow_db_path.unlink()`)
before returning `False`. -/
def is_airflow_installed (w : InstallWorld) (airflow_version : String) :
    Bool × Bool :=
  if !w.venvBinAirflow then (false, w.airflowDb)
  else if w.reportedVersion == airflow_version then (true, w.airflowDb)
  else (false, false)

/-- Python `str.split(".")` over a character list (accumulator-based, so
that it evaluates by structural recursion). -/
def splitOnDotAux : List Char → List Char → List (List Char)
  | [], acc => [acc.reverse]
  | c :: rest, acc =>
    if c = '.' then acc.reverse :: splitOnDotAux rest []
    else splitOnDotAux rest (c :: acc)

/-- Python `version.split(".")`. -/
def splitOnDot (s : String) : List String :=
  (splitOnDotAux s.data []).map String.mk

/-- Python `int(·)` on a version component: defined (as a `Nat`) exactly for
non-empty all-digit strings; `none` models the `ValueError` raised
otherwise. -/
def pyInt? (s : String) : Option Nat :=
  if s.data.isEmpty then none
  else if s.data.all Char.isDigit then
    some (s.data.foldl (fun n c => 10 * n + (c.toNat - '0'.toNat)) 0)
  else none

/-- `_get_major_minor_version` (install_airflow.py lines 124-126):
`major, minor = map(int, python_version.split(".")[:2])` then
`f"{major}.{minor}"`.  `none` models the `ValueError` Python's `int` raises
on a non-numeric component (or too few components). -/
def _get_major_minor_version (python_version : String) : Option String :=
  match (splitOnDot python_version).take 2 with
  | [a, b] =>
    match pyInt? a, pyInt? b with
    | some major, some minor => some (toString major ++ "." ++ toString minor)
    | _, _ => none
  | _ => none

/-- `os.path.join(venv_path, "bin", "python")` (posix). -/
def venv_bin_python (venv_path : String) : String :=
  venv_path ++ "/bin/python"

/-- install_airflow.py line 82. -/
def upgrade_pipeline_command (venv_path : String) : String :=
  venv_bin_python venv_path ++ " -m pip install --upgrade pip setuptools wheel"

/-- The install command before the target (lines 86-93): the upgrade
pipeline, `pip install`, the optional `-r <project>/requirements.txt`, and the
optional `AIRFLOWCTL_PIP_FLAGS` extra flags. -/
def base_install_command (w : InstallWorld) (venv_path project_path : String)
    (requirements : Bool) : String :=
  let c := upgrade_pipeline_command venv_path ++ " && " ++
    venv_bin_python venv_path ++ " -m pip install "
  let c := if requirements then c ++ " -r " ++ project_path ++ "/requirements.txt" else c
  if truthy w.env.pipFlags then c ++ " " ++ w.env.pipFlags.getD "" else c

/-- The templated default constraints URL (lines 102-105), given the already
computed major.minor interpreter version. -/
def default_constraints_url (version mm : String) : String :=
  "https://raw.githubusercontent.com/apache/airflow/constraints-" ++ version ++
    "/constraints-" ++ mm ++ ".txt"

/-- Lines 107-108: append the `--constraint` argument when the resolved
constraints URL is truthy and `AIRFLOWCTL_SKIP_CONSTRAINTS` is not set. -/
def with_constraint (cmd : String) (constraints_url : Option String)
    (skip : Option String) : String :=
  if truthy constraints_url && !truthy skip then
    cmd ++ " --constraint " ++ constraints_url.getD "" ++ " "
  else cmd

/-- How a call to `install_airflow` ends. -/
inductive InstallOutcome where
  /-- already installed at the requested version: log and return (line 71-75) -/
  | skipped
  /-- `<venv>/bin/python` missing: `raise SystemExit()` (lines 77-80) -/
  | invalidVenv
  /-- `int()` raised while templating the constraints URL (line 104/125) -/
  | pyError
  /-- the pipeline ran and exited zero (lines 113-118) -/
  | installed
  /-- the pipeline exited non-zero: `raise SystemExit()` (lines 119-121) -/
  | installFailed
deriving DecidableEq

/-- Result of a call to `install_airflow`: how it ended, the post-state of
the project's `airflow.db` file, whether the shell pipeline was executed,
the executed command, its working directory (`cwd=version` for a local
path), and the final value of the `constraints_url` variable at the point of
execution. -/
structure InstallResult where
  outcome : InstallOutcome
  airflowDb : Bool
  pipelineRan : Bool
  cmd : Option String
  cwd : Option String
  constraintsUrl : Option String
deriving DecidableEq

/-- `install_airflow` (install_airflow.py lines 62-121). -/
def install_airflow (w : InstallWorld)
    (version venv_path python_version project_path extras : String)
    (requirements : Bool) : InstallResult :=
  let pre := is_airflow_installed w version
  let db1 := pre.2
  if pre.1 then
    { outcome := .skipped, airflowDb := db1, pipelineRan := false,
      cmd := none, cwd := none, constraintsUrl := none }
  else if !w.venvBinPython then
    { outcome := .invalidVenv, airflowDb := db1, pipelineRan := false,
      cmd := none, cwd := none, constraintsUrl := none }
  else
    let base := base_install_command w venv_path project_path requirements
    if w.versionIsLocalPath then
      -- line 99: `install_command = f"{install_command} . "`; the
      -- constraints URL stays whatever AIRFLOWCTL_CONSTRAINTS held
      let cmd := with_constraint (base ++ " . ") w.env.constraints w.env.skipConstraints
      { outcome := if w.pipelineSucceeds then .installed else .installFailed,
        airflowDb := db1, pipelineRan := true, cmd := some cmd,
        cwd := some version, constraintsUrl := w.env.constraints }
    else
      let pinned := base ++ " 'apache-airflow==" ++ version ++ extras ++ "' "
      if truthy w.env.constraints then
        let cmd := with_constraint pinned w.env.constraints w.env.skipConstraints
        { outcome := if w.pipelineSucceeds then .installed else .installFailed,
          airflowDb := db1, pipelineRan := true, cmd := some cmd,
          cwd := none, constraintsUrl := w.env.constraints }
      else
        match _get_major_minor_version python_version with
        | none =>
          { outcome := .pyError, airflowDb := db1, pipelineRan := false,
            cmd := none, cwd := none, constraintsUrl := none }
        | some mm =>
          let curl := some (default_constraints_url version mm)
          let cmd := with_constraint pinned curl w.env.skipConstraints
          { outcome := if w.pipelineSucceeds then .installed else .installFailed,
            airflowDb := db1, pipelineRan := true, cmd := some cmd,
            cwd := none, constraintsUrl := curl }

/-!
## Runtime provisioning (`airflowctl/modes/virtualenv.py` lines 367-423)

`verify_or_create_venv` and `create_virtualenv_with_specific_python_version`
are modelled as functions over an explicit venv-directory state, returning
the list of filesystem/subprocess effects they perform.  External commands
run with `check=True` are assumed to succeed (a failure would raise an
uncaught `CalledProcessError`; no claim concerns that path).
-/

/-- State of the venv directory on disk. -/
structure VenvState where
  /-- `os.path.exists(venv_path)` -/
  venvExists : Bool
  /-- `os.path.exists(os.path.join(venv_path, "bin", "python"))` -/
  binPythonExists : Bool
deriving DecidableEq

/-- Destructive / creating effects performed while provisioning. -/
inductive VEvent where
  /-- `shutil.rmtree(venv_path)` (line 406) -/
  | rmtree
  /-- `pyenv install <ver> --skip-existing` (line 376) -/
  | pyenvInstall (ver : String)
  /-- `pyenv prefix <ver>` (lines 381-383) -/
  | pyenvQuery (ver : String)
  /-- `<prefix>/bin/python -m venv <venv_path> --clear` (line 389): builds the
  venv anew, clearing any existing contents -/
  | venvClear
  /-- `<venv>/bin/python -m pip install --upgrade pip` (line 394) -/
  | pipUpgrade
  /-- `venv.create(venv_path, with_pip=True)` (line 420) -/
  | venvCreate
deriving DecidableEq

/-- How a provisioning call ends.  `exit s` is process termination with exit
status `s`: `typer.Exit(1)` gives status 1, while a bare `raise SystemExit()`
carries no code and gives process exit status 0. -/
inductive ProvisionResult where
  | ok (path : String)
  | exit (status : Nat)
deriving DecidableEq

/-- Result of `create_virtualenv_with_specific_python_version`: either the
new venv state plus the effects performed, or process exit. -/
inductive CreateVenvResult where
  | ok (st : VenvState) (events : List VEvent)
  | exit (status : Nat)
deriving DecidableEq

/-- `create_virtualenv_with_specific_python_version` (virtualenv.py lines
367-397).  `pyenvAvailable` models `shutil.which("pyenv")`.  On success the
venv exists and is valid (it was just built from the pyenv interpreter with
`--clear`). -/
def create_virtualenv_with_specific_python_version (pyenvAvailable : Bool)
    (python_version : String) : CreateVenvResult :=
  if pyenvAvailable then
    .ok { venvExists := true, binPythonExists := true }
      [VEvent.pyenvInstall python_version, VEvent.pyenvQuery python_version,
       VEvent.venvClear, VEvent.pipUpgrade]
  else
    -- "Install pyenv to use a specific Python version." then typer.Exit(1)
    .exit 1

/-- Outcome of `verify_or_create_venv`: final result, final venv state, and
the effects performed, in order. -/
structure ProvisionOut where
  result : ProvisionResult
  state : VenvState
  events : List VEvent
deriving DecidableEq

/-- `verify_or_create_venv` (virtualenv.py lines 400-423).  `hostVersion`
models `INSTALLED_PYTHON_VERSION` (the interpreter running the CLI). -/
def verify_or_create_venv (hostVersion : String) (pyenvAvailable : Bool)
    (st0 : VenvState) (venv_path : String) (recreate : Bool)
    (python_version : String) : ProvisionOut :=
  let cleared := recreate && st0.venvExists
  let st1 : VenvState := if cleared then { venvExists := false, binPythonExists := false } else st0
  let evs1 : List VEvent := if cleared then [VEvent.rmtree] else []
  if st1.venvExists && !st1.binPythonExists then
    -- "Virtual environment ... does not exist or is not valid." then
    -- `raise SystemExit()`: no code, so the process exit status is 0
    { result := .exit 0, state := st1, events := evs1 }
  else if python_version != hostVersion then
    match create_virtualenv_with_specific_python_version pyenvAvailable python_version with
    | .ok st2 evs2 =>
      -- after the venv was just created it exists, so line 419's
      -- `venv.create` is skipped
      { result := .ok venv_path, state := st2, events := evs1 ++ evs2 }
    | .exit s => { result := .exit s, state := st1, events := evs1 }
  else if !st1.venvExists then
    { result := .ok venv_path,
      state := { venvExists := true, binPythonExists := true },
      events := evs1 ++ [VEvent.venvCreate] }
  else
    { result := .ok venv_path, state := st1, events := evs1 }

/-!
## Log streaming (`VirtualenvMode.logs`, virtualenv.py lines 162-205)

The per-line processing of the tail loop: compute the component matches on
the line, strip ANSI escape sequences with
`re.sub(r"\x1B\[[0-9;]*[mK]", "", line)`, then emit (styled, plain, or not
at all).
-/

/-- Consume the `[0-9;]*[mK]` part of the ANSI escape regex: zero or more
digits or semicolons followed by `m` or `K`.  Returns the remaining
characters on a match. -/
def consumeEscBody : List Char → Option (List Char)
  | [] => none
  | c :: rest =>
    if c.isDigit || c = ';' then consumeEscBody rest
    else if c = 'm' || c = 'K' then some rest
    else none

/-- Match the regex `\x1B\[[0-9;]*[mK]` at the head of the character list,
returning the characters after the match. -/
def matchAnsi : List Char → Option (List Char)
  | '\x1B' :: '[' :: rest => consumeEscBody rest
  | _ => none

theorem consumeEscBody_length :
    ∀ l r, consumeEscBody l = some r → r.length < l.length := by
  intro l
  induction l with
  | nil => intro r h; simp [consumeEscBody] at h
  | cons c rest ih =>
    intro r h
    simp only [consumeEscBody] at h
    split at h
    · have := ih r h
      simp only [List.length_cons]
      omega
    · split at h
      · injection h with h
        subst h
        simp
      · simp at h

theorem matchAnsi_length :
    ∀ l r, matchAnsi l = some r → r.length < l.length := by
  intro l r h
  unfold matchAnsi at h
  split at h
  · have := consumeEscBody_length _ _ h
    simp only [List.length_cons]
    omega
  · simp at h

/-- `re.sub(r"\x1B\[[0-9;]*[mK]", "", ·)` over a character list: scan left
to right, dropping each leftmost non-overlapping match of the pattern and
keeping every other character.  Fuel-indexed so that the recursion is
structural (and hence kernel-evaluable); `matchAnsi_length` shows a fuel of
the list length suffices, the zero-fuel case being unreachable. -/
def stripAnsiFuel : Nat → List Char → List Char
  | 0, _ => []
  | _ + 1, [] => []
  | fuel + 1, c :: rest =>
    match matchAnsi (c :: rest) with
    | some rem => stripAnsiFuel fuel rem
    | none => c :: stripAnsiFuel fuel rest

/-- `re.sub(r"\x1B\[[0-9;]*[mK]", "", line)`. -/
def stripAnsi (line : String) : String :=
  String.mk (stripAnsiFuel line.data.length line.data)

/-- Python substring containment over character lists (`needle in hay`). -/
def containsChars (needle : List Char) : List Char → Bool
  | [] => needle.isEmpty
  | c :: rest => needle.isPrefixOf (c :: rest) || containsChars needle rest

/-- Python `needle in hay` for strings. -/
def containsStr (needle hay : String) : Bool :=
  containsChars needle.data hay.data

/-- Python `line.lower()`, char-wise (ASCII case mapping, which coincides
with Python's on the ASCII component tags and log lines concerned). -/
def pyLower (s : String) : String :=
  String.mk (s.data.map Char.toLower)

/-- A line emitted by the log loop, either via
`console.print(line, style=...)` or a plain `console.print(line)`. -/
inductive Emit where
  | styled (line : String) (style : String)
  | plain (line : String)
deriving DecidableEq

/-- The text of an emitted line. -/
def Emit.text : Emit → String
  | .styled l _ => l
  | .plain l => l

/-- One iteration of the tail loop of `VirtualenvMode.logs` (virtualenv.py
lines 183-200): the component matches are computed on the line as read, the
line is then ANSI-stripped, and the stripped line is emitted styled when a
filter matched, plainly when no filter is active, and not at all
otherwise. -/
def processLine (webserver scheduler triggerer : Bool) (line : String) :
    Option Emit :=
  let is_webserver_log := webserver && containsStr "webserver" (pyLower line)
  let is_scheduler_log := scheduler && containsStr "scheduler" (pyLower line)
  let is_triggerer_log := triggerer && containsStr "triggerer" (pyLower line)
  let line := stripAnsi line
  if is_webserver_log || is_scheduler_log || is_triggerer_log then
    if is_webserver_log then some (.styled line "bold cyan")
    else if is_scheduler_log then some (.styled line "bold magenta")
    else if is_triggerer_log then some (.styled line "bold yellow")
    else none
  else if !(webserver || scheduler || triggerer) then some (.plain line)
  else none

/-- Modelled from the spec: the per-line processing as the spec describes
it, with ANSI escape sequences stripped from the line **before** component
matching is performed, so that the substring tests operate on the
escape-stripped line.  For comparison with `processLine`, which is the
code's order. -/
def processLineSpecOrder (webserver scheduler triggerer : Bool)
    (line : String) : Option Emit :=
  let line := stripAnsi line
  let is_webserver_log := webserver && containsStr "webserver" (pyLower line)
  let is_scheduler_log := scheduler && containsStr "scheduler" (pyLower line)
  let is_triggerer_log := triggerer && containsStr "triggerer" (pyLower line)
  if is_webserver_log || is_scheduler_log || is_triggerer_log then
    if is_webserver_log then some (.styled line "bold cyan")
    else if is_scheduler_log then some (.styled line "bold magenta")
    else if is_triggerer_log then some (.styled line "bold yellow")
    else none
  else if !(webserver || scheduler || triggerer) then some (.plain line)
  else none

/-- The whole tail loop over a list of lines: the emitted lines, in order. -/
def streamLines (webserver scheduler triggerer : Bool)
    (lines : List String) : List Emit :=
  lines.filterMap (processLine webserver scheduler triggerer)

/-- The emission decision of the code, phrased directly on the raw
(unstripped) line. -/
def matchesRawLine (webserver scheduler triggerer : Bool) (line : String) :
    Bool :=
  (webserver && containsStr "webserver" (pyLower line)) ||
  (scheduler && containsStr "scheduler" (pyLower line)) ||
  (triggerer && containsStr "triggerer" (pyLower line)) ||
  !(webserver || scheduler || triggerer)

/-!
## Process-tree termination (`VirtualenvMode.stop` and
`VirtualenvMode._terminate_process_tree`, virtualenv.py lines 207-229 and
310-321)

The live OS processes are modelled as a forest of process trees.
`psutil.Process(pid)` is a lookup in the forest (raising `NoSuchProcess`
when absent, modelled as `none`); `process.children(recursive=True)` is the
list of all strict descendants of the found node.  Terminating and waiting
are recorded as events.
-/

/-- A process and the processes it (transitively) spawned. -/
inductive PTree where
  | node (pid : Nat) (kids : List PTree)

mutual

/-- All pids in a tree, the root included. -/
def PTree.allPids : PTree → List Nat
  | .node p kids => p :: PTree.allPidsForest kids

/-- All pids in a forest. -/
def PTree.allPidsForest : List PTree → List Nat
  | [] => []
  | t :: ts => PTree.allPids t ++ PTree.allPidsForest ts

end

/-- `process.children(recursive=True)` for the root of `t`: every strict
descendant. -/
def PTree.descendants : PTree → List Nat
  | .node _ kids => PTree.allPidsForest kids

mutual

/-- `psutil.Process(pid)` within one tree: the subtree rooted at `pid`,
`none` when no such process exists. -/
def PTree.findProc (pid : Nat) : PTree → Option PTree
  | .node p kids =>
    if p = pid then some (.node p kids) else PTree.findProcForest pid kids

/-- `psutil.Process(pid)` within a forest. -/
def PTree.findProcForest (pid : Nat) : List PTree → Option PTree
  | [] => none
  | t :: ts =>
    match PTree.findProc pid t with
    | some r => some r
    | none => PTree.findProcForest pid ts

end

/-- An action performed while stopping background processes. -/
inductive PEvent where
  /-- `proc.terminate()` -/
  | terminate (pid : Nat)
  /-- `process.wait(timeout=10)` -/
  | wait (pid : Nat)
deriving DecidableEq

/-- `VirtualenvMode._terminate_process_tree` (virtualenv.py lines 310-321):
look the pid up; if found, terminate every descendant, then terminate the
process itself, then wait for it; `psutil.NoSuchProcess` is swallowed
(`pass`), so an absent pid performs nothing and raises nothing. -/
def _terminate_process_tree (world : List PTree) (pid : Nat) : List PEvent :=
  match PTree.findProcForest pid world with
  | none => []
  | some t =>
    (t.descendants).map PEvent.terminate ++ [PEvent.terminate pid, PEvent.wait pid]

/-- How `VirtualenvMode.stop` ends: `typer.Exit(1)` ("No background
processes found.") or normal completion. -/
inductive StopResult where
  | exit (status : Nat)
  | ok
deriving DecidableEq

/-- The `for pid in process_ids` loop of `stop` (lines 222-223). -/
def stopLoop (world : List PTree) : List Nat → List PEvent
  | [] => []
  | pid :: rest => _terminate_process_tree world pid ++ stopLoop world rest

/-- `VirtualenvMode.stop` (virtualenv.py lines 207-229), after parsing the
PID-record file into `process_ids`.  `fileExists` models
`self.background_process_ids_file.exists()`. -/
def VirtualenvMode.stop (world : List PTree) (fileExists : Bool)
    (process_ids : List Nat) : StopResult × List PEvent :=
  if !fileExists then (.exit 1, [])
  else if process_ids.isEmpty then (.exit 1, [])
  else (.ok, stopLoop world process_ids)

/-!
## Claims about `install_airflow`
-/

/-- A world refuting C9 as stated: the requested version is a local source
path, but the `AIRFLOWCTL_CONSTRAINTS` environment override is set. -/
def c9World : InstallWorld where
  venvBinAirflow := false
  reportedVersion := ""
  venvBinPython := true
  airflowDb := false
  versionIsLocalPath := true
  pipelineSucceeds := true
  env := { constraints := some "https://example.com/my-constraints.txt",
           pipFlags := none, skipConstraints := none }

/-- C9 counterexample: for a local-path version, with the environment-level
constraints override set, the executed pipeline **does** carry a
`--constraint` argument — refuting the claim that for a local path no
constraints argument is appended under every environment configuration.
The local path is still used as working directory and the target is
`.` . -/
theorem c9_counterexample :
    c9World.versionIsLocalPath = true ∧
    (install_airflow c9World "/src/airflow" "/venv" "3.10.4" "/proj" "" true).cwd
      = some "/src/airflow" ∧
    (install_airflow c9World "/src/airflow" "/venv" "3.10.4" "/proj" "" true).cmd
      = some ("/venv/bin/python -m pip install --upgrade pip setuptools wheel && /venv/bin/python -m pip install  -r /proj/requirements.txt .  --constraint https://example.com/my-constraints.txt ") ∧
    containsStr " --constraint "
      ((install_airflow c9World "/src/airflow" "/venv" "3.10.4" "/proj" "" true).cmd.getD "")
      = true := by
  exact ⟨rfl, rfl, rfl, by decide⟩

/-- C9 amended: for a local-path version, installation runs with the local
path as working directory and `.` as the install target, and no default
constraints URL is templated (the constraints source stays exactly the
environment override); hence when the override is unset (or skipping is
requested) no constraints argument is appended, but a set override (with
skipping not requested) **is** appended. -/
theorem c9_amended_local_path (w : InstallWorld)
    (version venv_path python_version project_path extras : String)
    (requirements : Bool)
    (hni : w.venvBinAirflow = false ∨ w.reportedVersion ≠ version)
    (hbp : w.venvBinPython = true)
    (hlocal : w.versionIsLocalPath = true) :
    (install_airflow w version venv_path python_version project_path extras
        requirements).cwd = some version ∧
    (install_airflow w version venv_path python_version project_path extras
        requirements).constraintsUrl = w.env.constraints ∧
    (truthy w.env.constraints = false ∨ truthy w.env.skipConstraints = true →
      (install_airflow w version venv_path python_version project_path extras
          requirements).cmd =
        some (base_install_command w venv_path project_path requirements ++ " . ")) ∧
    (truthy w.env.constraints = true → truthy w.env.skipConstraints = false →
      (install_airflow w version venv_path python_version project_path extras
          requirements).cmd =
        some (base_install_command w venv_path project_path requirements ++ " . "
          ++ " --constraint " ++ w.env.constraints.getD "" ++ " ")) := by
  have hpre : (is_airflow_installed w version).1 = false := by
    rcases hni with h | h
    · simp [is_airflow_installed, h]
    · have hbeq : (w.reportedVersion == version) = false := by simp [h]
      simp only [is_airflow_installed, hbeq]
      split <;> rfl
  refine ⟨?_, ?_, ?_, ?_⟩
  · simp [install_airflow, hpre, hbp, hlocal]
  · simp [install_airflow, hpre, hbp, hlocal]
  · intro h1
    rcases h1 with h1 | h1 <;>
    simp [install_airflow, hpre, hbp, hlocal, with_constraint, h1]
  · intro h1 h2
    simp [install_airflow, hpre, hbp, hlocal, with_constraint, h1, h2]

theorem c9_amended_local_path_witness :
    c9World.versionIsLocalPath = true ∧
    ((install_airflow c9World "/src/airflow" "/venv" "3.10.4" "/proj" "" true).cwd
        = some "/src/airflow" ∧
      (install_airflow c9World "/src/airflow" "/venv" "3.10.4" "/proj" "" true).constraintsUrl
        = c9World.env.constraints ∧
      (truthy c9World.env.constraints = false ∨
          truthy c9World.env.skipConstraints = true →
        (install_airflow c9World "/src/airflow" "/venv" "3.10.4" "/proj" "" true).cmd
          = some (base_install_command c9World "/venv" "/proj" true ++ " . ")) ∧
      (truthy c9World.env.constraints = true →
        truthy c9World.env.skipConstraints = false →
        (install_airflow c9World "/src/airflow" "/venv" "3.10.4" "/proj" "" true).cmd
          = some (base_install_command c9World "/venv" "/proj" true ++ " . "
            ++ " --constraint " ++ c9World.env.constraints.getD "" ++ " "))) :=
  ⟨rfl,
    c9_amended_local_path c9World "/src/airflow" "/venv" "3.10.4" "/proj" "" true
      (Or.inl rfl) rfl rfl⟩

/-- C1: when the application is already installed in the runtime and its
reported version equals the requested version exactly, `install_airflow`
logs and returns: no install pipeline execution, no command assembled, and
the project state (the `airflow.db` file) is left unchanged. -/
theorem c1_install_idempotent (w : InstallWorld)
    (version venv_path python_version project_path extras : String)
    (requirements : Bool)
    (hinst : w.venvBinAirflow = true)
    (hver : w.reportedVersion = version) :
    install_airflow w version venv_path python_version project_path extras
        requirements =
      { outcome := .skipped, airflowDb := w.airflowDb, pipelineRan := false,
        cmd := none, cwd := none, constraintsUrl := none } := by
  simp [install_airflow, is_airflow_installed, hinst, hver]

def c1World : InstallWorld where
  venvBinAirflow := true
  reportedVersion := "2.8.1"
  venvBinPython := true
  airflowDb := true
  versionIsLocalPath := false
  pipelineSucceeds := true
  env := { constraints := none, pipFlags := none, skipConstraints := none }

theorem c1_install_idempotent_witness :
    c1World.venvBinAirflow = true ∧ c1World.reportedVersion = "2.8.1" ∧
    install_airflow c1World "2.8.1" "/venv" "3.10.4" "/proj" "" true =
      { outcome := .skipped, airflowDb := true, pipelineRan := false,
        cmd := none, cwd := none, constraintsUrl := none } :=
  ⟨rfl, rfl,
    c1_install_idempotent c1World "2.8.1" "/venv" "3.10.4" "/proj" "" true rfl rfl⟩

/-- C8: for application version 2.8.1 and interpreter version 3.10.4, with
no environment-level constraints override, the constraints URL resolved by
`install_airflow` is exactly the templated one, which embeds
`constraints-2.8.1` and `constraints-3.10.txt` (the interpreter version
truncated to major.minor). -/
theorem c8_constraints_url_determinism (w : InstallWorld)
    (venv_path project_path extras : String) (requirements : Bool)
    (hni : w.venvBinAirflow = false ∨ w.reportedVersion ≠ "2.8.1")
    (hbp : w.venvBinPython = true)
    (hlocal : w.versionIsLocalPath = false)
    (hoverride : truthy w.env.constraints = false) :
    (install_airflow w "2.8.1" venv_path "3.10.4" project_path extras
        requirements).constraintsUrl =
      some "https://raw.githubusercontent.com/apache/airflow/constraints-2.8.1/constraints-3.10.txt" ∧
    containsStr "constraints-2.8.1"
      "https://raw.githubusercontent.com/apache/airflow/constraints-2.8.1/constraints-3.10.txt"
      = true ∧
    containsStr "constraints-3.10.txt"
      "https://raw.githubusercontent.com/apache/airflow/constraints-2.8.1/constraints-3.10.txt"
      = true := by
  refine ⟨?_, by decide, by decide⟩
  have hmm : _get_major_minor_version "3.10.4" = some "3.10" := by decide
  have hpre : (is_airflow_installed w "2.8.1").1 = false := by
    rcases hni with h | h
    · simp [is_airflow_installed, h]
    · have hbeq : (w.reportedVersion == "2.8.1") = false := by simp [h]
      simp only [is_airflow_installed, hbeq]
      split <;> rfl
  simp [install_airflow, hpre, hbp, hlocal, hoverride, hmm,
    default_constraints_url]

def c8World : InstallWorld where
  venvBinAirflow := false
  reportedVersion := ""
  venvBinPython := true
  airflowDb := false
  versionIsLocalPath := false
  pipelineSucceeds := true
  env := { constraints := none, pipFlags := none, skipConstraints := none }

theorem c8_constraints_url_determinism_witness :
    (c8World.venvBinAirflow = false ∨ c8World.reportedVersion ≠ "2.8.1") ∧
    ((install_airflow c8World "2.8.1" "/venv" "3.10.4" "/proj" "" true).constraintsUrl
        = some "https://raw.githubusercontent.com/apache/airflow/constraints-2.8.1/constraints-3.10.txt" ∧
      containsStr "constraints-2.8.1"
        "https://raw.githubusercontent.com/apache/airflow/constraints-2.8.1/constraints-3.10.txt"
        = true ∧
      containsStr "constraints-3.10.txt"
        "https://raw.githubusercontent.com/apache/airflow/constraints-2.8.1/constraints-3.10.txt"
        = true) :=
  ⟨Or.inl rfl,
    c8_constraints_url_determinism c8World "/venv" "/proj" "" true (Or.inl rfl)
      rfl rfl rfl⟩

/-- A world refuting C2 as stated: the application is installed at version
2.7.0 while 2.8.1 is requested, but the runtime has no `bin/python`. -/
def c2World : InstallWorld where
  venvBinAirflow := true
  reportedVersion := "2.7.0"
  venvBinPython := false
  airflowDb := true
  versionIsLocalPath := false
  pipelineSucceeds := true
  env := { constraints := none, pipFlags := none, skipConstraints := none }

/-- C2 counterexample: with installed version 2.7.0 and requested version
2.8.1 — a version mismatch — but `bin/python` missing from the runtime, the
storage file is deleted yet the install pipeline is **not** executed
(`install_airflow` raises `SystemExit` first), refuting the claim that the
pipeline executes on every version mismatch. -/
theorem c2_counterexample :
    c2World.venvBinAirflow = true ∧
    c2World.reportedVersion ≠ "2.8.1" ∧
    (install_airflow c2World "2.8.1" "/venv" "3.10.4" "/proj" "" true).airflowDb
      = false ∧
    (install_airflow c2World "2.8.1" "/venv" "3.10.4" "/proj" "" true).pipelineRan
      = false ∧
    (install_airflow c2World "2.8.1" "/venv" "3.10.4" "/proj" "" true).outcome
      = InstallOutcome.invalidVenv := by
  refine ⟨rfl, ?_, rfl, rfl, rfl⟩
  decide

/-- C2 amended: on a version mismatch the project's storage file is always
deleted before reinstalling; the install pipeline is then executed provided
the runtime's interpreter executable exists and a constraints source
resolves without error (the version is a local path, or the override is
set, or the interpreter version string parses). -/
theorem c2_amended_mismatch_reinstall (w : InstallWorld)
    (version venv_path python_version project_path extras : String)
    (requirements : Bool)
    (hinst : w.venvBinAirflow = true)
    (hver : w.reportedVersion ≠ version) :
    (install_airflow w version venv_path python_version project_path extras
        requirements).airflowDb = false ∧
    (w.venvBinPython = true →
      (w.versionIsLocalPath = true ∨ truthy w.env.constraints = true ∨
        (_get_major_minor_version python_version).isSome = true) →
      (install_airflow w version venv_path python_version project_path extras
          requirements).pipelineRan = true) := by
  have hbeq : (w.reportedVersion == version) = false := by
    simp [hver]
  by_cases hbp : w.venvBinPython = true <;>
  by_cases hl : w.versionIsLocalPath = true <;>
  by_cases hc : truthy w.env.constraints = true <;>
  rcases hm : _get_major_minor_version python_version with _ | mm <;>
  constructor <;>
  simp_all [install_airflow, is_airflow_installed]

def c2AmWorld : InstallWorld where
  venvBinAirflow := true
  reportedVersion := "2.7.0"
  venvBinPython := true
  airflowDb := true
  versionIsLocalPath := false
  pipelineSucceeds := true
  env := { constraints := none, pipFlags := none, skipConstraints := none }

/-- C10: the storage-file deletion on a version mismatch happens inside the
pre-install check and is never rolled back: whenever the installed version
differs from the requested one, the post-state no longer contains
`airflow.db`, whatever the pipeline then does; in particular, when the
pipeline runs and exits non-zero the invocation aborts
(`InstallOutcome.installFailed`) with the storage file already gone. -/
theorem c10_storage_reset_no_rollback (w : InstallWorld)
    (version venv_path python_version project_path extras : String)
    (requirements : Bool)
    (hinst : w.venvBinAirflow = true)
    (hver : w.reportedVersion ≠ version) :
    (install_airflow w version venv_path python_version project_path extras
        requirements).airflowDb = false ∧
    (w.pipelineSucceeds = false →
      (install_airflow w version venv_path python_version project_path extras
          requirements).pipelineRan = true →
      (install_airflow w version venv_path python_version project_path extras
          requirements).outcome = InstallOutcome.installFailed) := by
  have hbeq : (w.reportedVersion == version) = false := by
    simp [hver]
  by_cases hbp : w.venvBinPython = true <;>
  by_cases hl : w.versionIsLocalPath = true <;>
  by_cases hc : truthy w.env.constraints = true <;>
  rcases hm : _get_major_minor_version python_version with _ | mm <;>
  constructor <;>
  simp_all [install_airflow, is_airflow_installed]

def c10World : InstallWorld where
  venvBinAirflow := true
  reportedVersion := "2.7.0"
  venvBinPython := true
  airflowDb := true
  versionIsLocalPath := false
  pipelineSucceeds := false
  env := { constraints := none, pipFlags := none, skipConstraints := none }

theorem c10_storage_reset_no_rollback_witness :
    c10World.venvBinAirflow = true ∧ c10World.reportedVersion ≠ "2.8.1" ∧
    ((install_airflow c10World "2.8.1" "/venv" "3.10.4" "/proj" "" true).airflowDb
        = false ∧
      (c10World.pipelineSucceeds = false →
        (install_airflow c10World "2.8.1" "/venv" "3.10.4" "/proj" "" true).pipelineRan
          = true →
        (install_airflow c10World "2.8.1" "/venv" "3.10.4" "/proj" "" true).outcome
          = InstallOutcome.installFailed)) :=
  ⟨rfl, by decide,
    c10_storage_reset_no_rollback c10World "2.8.1" "/venv" "3.10.4" "/proj" ""
      true rfl (by decide)⟩

theorem c2_amended_mismatch_reinstall_witness :
    c2AmWorld.venvBinAirflow = true ∧ c2AmWorld.reportedVersion ≠ "2.8.1" ∧
    ((install_airflow c2AmWorld "2.8.1" "/venv" "3.10.4" "/proj" "" true).airflowDb
        = false ∧
      (c2AmWorld.venvBinPython = true →
        (c2AmWorld.versionIsLocalPath = true ∨
          truthy c2AmWorld.env.constraints = true ∨
          (_get_major_minor_version "3.10.4").isSome = true) →
        (install_airflow c2AmWorld "2.8.1" "/venv" "3.10.4" "/proj" "" true).pipelineRan
          = true)) :=
  ⟨rfl, by decide,
    c2_amended_mismatch_reinstall c2AmWorld "2.8.1" "/venv" "3.10.4" "/proj" ""
      true rfl (by decide)⟩

/-!
## Claims about `verify_or_create_venv`
-/

/-- C3 counterexample: against an already-valid runtime, with the requested
interpreter version (3.10.4) different from the host's (3.11.4) and pyenv
available, the second identical `verify_or_create_venv` call still returns
the same path but performs `python -m venv <path> --clear` — a destructive
re-creation of the runtime — refuting the claim that the second call
performs no destructive action for every interpreter-version input. -/
theorem c3_counterexample :
    (verify_or_create_venv "3.11.4" true (VenvState.mk true true) "/p/.venv"
        false "3.10.4").state = VenvState.mk true true ∧
    (verify_or_create_venv "3.11.4" true
        (verify_or_create_venv "3.11.4" true (VenvState.mk true true) "/p/.venv"
          false "3.10.4").state
        "/p/.venv" false "3.10.4").result = ProvisionResult.ok "/p/.venv" ∧
    VEvent.venvClear ∈ (verify_or_create_venv "3.11.4" true
        (verify_or_create_venv "3.11.4" true (VenvState.mk true true) "/p/.venv"
          false "3.10.4").state
        "/p/.venv" false "3.10.4").events := by
  refine ⟨rfl, rfl, ?_⟩
  decide

/-- C3 amended: calling `verify_or_create_venv` twice with identical inputs
and `recreate = false` against an already-valid runtime returns the same
runtime path both times.  When the requested interpreter version equals the
host's, the second (indeed each) call performs no action at all and leaves
the state unchanged; when it differs (and pyenv is available) each call,
the second included, re-creates the runtime with `--clear`, which is
destructive. -/
theorem c3_amended_idempotent_provision (st : VenvState)
    (venv_path python_version hostVersion : String) (pyenvAvailable : Bool)
    (hex : st.venvExists = true) (hpy : st.binPythonExists = true) :
    ((python_version = hostVersion →
      verify_or_create_venv hostVersion pyenvAvailable st venv_path false
          python_version =
        { result := .ok venv_path, state := st, events := [] } ∧
      verify_or_create_venv hostVersion pyenvAvailable
          (verify_or_create_venv hostVersion pyenvAvailable st venv_path false
            python_version).state venv_path false python_version =
        { result := .ok venv_path, state := st, events := [] }) ∧
    (python_version ≠ hostVersion → pyenvAvailable = true →
      (verify_or_create_venv hostVersion pyenvAvailable
          (verify_or_create_venv hostVersion pyenvAvailable st venv_path false
            python_version).state venv_path false python_version).result
        = .ok venv_path ∧
      VEvent.venvClear ∈ (verify_or_create_venv hostVersion pyenvAvailable
          (verify_or_create_venv hostVersion pyenvAvailable st venv_path false
            python_version).state venv_path false python_version).events)) := by
  constructor
  · intro heq
    have h1 : verify_or_create_venv hostVersion pyenvAvailable st venv_path false
        python_version = { result := .ok venv_path, state := st, events := [] } := by
      simp [verify_or_create_venv, hex, hpy, heq]
    rw [h1]
    exact ⟨rfl, by simp [verify_or_create_venv, hex, hpy, heq]⟩
  · intro hne hpyenv
    have hbne : (python_version != hostVersion) = true := by
      simp [hne]
    have h1 : verify_or_create_venv hostVersion pyenvAvailable st venv_path false
        python_version =
        { result := .ok venv_path, state := VenvState.mk true true,
          events := [VEvent.pyenvInstall python_version,
            VEvent.pyenvQuery python_version, VEvent.venvClear,
            VEvent.pipUpgrade] } := by
      simp [verify_or_create_venv, hex, hpy, hbne, hpyenv,
        create_virtualenv_with_specific_python_version]
    rw [h1]
    constructor <;>
    simp [verify_or_create_venv, hbne, hpyenv,
      create_virtualenv_with_specific_python_version]

theorem c3_amended_idempotent_provision_witness :
    (VenvState.mk true true).venvExists = true ∧
    ("3.11.4" : String) = "3.11.4" ∧
    verify_or_create_venv "3.11.4" true (VenvState.mk true true) "/p/.venv"
        false "3.11.4" =
      { result := .ok "/p/.venv", state := VenvState.mk true true, events := [] } ∧
    verify_or_create_venv "3.11.4" true
        (verify_or_create_venv "3.11.4" true (VenvState.mk true true) "/p/.venv"
          false "3.11.4").state "/p/.venv" false "3.11.4" =
      { result := .ok "/p/.venv", state := VenvState.mk true true, events := [] } :=
  ⟨rfl, rfl,
    ((c3_amended_idempotent_provision (VenvState.mk true true) "/p/.venv"
        "3.11.4" "3.11.4" true rfl rfl).1 rfl).1,
    ((c3_amended_idempotent_provision (VenvState.mk true true) "/p/.venv"
        "3.11.4" "3.11.4" true rfl rfl).1 rfl).2⟩

/-- C5: a target path that exists without its `bin/python` interpreter is
fatal and unrepaired — `verify_or_create_venv` performs no effect at all and
raises `SystemExit` — but the `SystemExit` is raised with **no code**, so
the process exit status is 0, not the claimed 1.  (Supporting theorem for
the code bug: claim and spec taxonomy say precondition failures exit with
status 1.) -/
theorem c5_invalid_runtime_aborts (st : VenvState)
    (hostVersion venv_path python_version : String) (pyenvAvailable : Bool)
    (hex : st.venvExists = true) (hpy : st.binPythonExists = false) :
    verify_or_create_venv hostVersion pyenvAvailable st venv_path false
        python_version =
      { result := .exit 0, state := st, events := [] } := by
  simp [verify_or_create_venv, hex, hpy]

/-!
## Claims about `VirtualenvMode.stop`
-/

theorem stopLoop_eq_bind (world : List PTree) (ps : List Nat) :
    stopLoop world ps = ps.bind (_terminate_process_tree world) := by
  induction ps with
  | nil => rfl
  | cons p rest ih => simp [stopLoop, ih]

/-- C4: for every non-empty list of tracked PIDs, `stop` completes without
error; its actions are exactly the per-PID terminations concatenated in
order (so a not-found PID never aborts the processing of the remaining
PIDs); a PID with no live process contributes no action and raises no
error; and for each found PID every descendant's `terminate` precedes the
PID's own `terminate` (post-order: children before the process itself). -/
theorem c4_stop_tree_termination (world : List PTree) (pids : List Nat)
    (hne : pids ≠ []) :
    (VirtualenvMode.stop world true pids).1 = StopResult.ok ∧
    (VirtualenvMode.stop world true pids).2
      = pids.bind (_terminate_process_tree world) ∧
    (∀ pid ∈ pids, PTree.findProcForest pid world = none →
      _terminate_process_tree world pid = []) ∧
    (∀ pid ∈ pids, ∀ t, PTree.findProcForest pid world = some t →
      ∀ d ∈ t.descendants, ∃ i j, i < j ∧
        (_terminate_process_tree world pid).get? i
          = some (PEvent.terminate d) ∧
        (_terminate_process_tree world pid).get? j
          = some (PEvent.terminate pid)) := by
  have hemp : pids.isEmpty = false := by
    cases pids with
    | nil => exact absurd rfl hne
    | cons p rest => rfl
  refine ⟨?_, ?_, ?_, ?_⟩
  · simp [VirtualenvMode.stop, hemp]
  · simp [VirtualenvMode.stop, hemp, stopLoop_eq_bind]
  · intro pid _ hfind
    simp [_terminate_process_tree, hfind]
  · intro pid _ t hfind d hd
    have hevents : _terminate_process_tree world pid
        = (t.descendants).map PEvent.terminate
          ++ [PEvent.terminate pid, PEvent.wait pid] := by
      simp [_terminate_process_tree, hfind]
    obtain ⟨n, hn⟩ := List.mem_iff_get?.mp hd
    have hlt : n < t.descendants.length := by
      rcases List.get?_eq_some.mp hn with ⟨h, _⟩
      exact h
    refine ⟨n, t.descendants.length, hlt, ?_, ?_⟩
    · rw [hevents, List.get?_append (by simpa using hlt), List.get?_map, hn]
      rfl
    · rw [hevents, List.get?_append_right (by simp)]
      simp

def c4Forest : List PTree :=
  [PTree.node 1 [PTree.node 2 [], PTree.node 3 [PTree.node 4 []]]]

theorem c4_stop_tree_termination_witness :
    (([1, 99] : List Nat) ≠ []) ∧
    (VirtualenvMode.stop c4Forest true [1, 99]).1 = StopResult.ok ∧
    (VirtualenvMode.stop c4Forest true [1, 99]).2
      = ([1, 99] : List Nat).bind (_terminate_process_tree c4Forest) ∧
    (VirtualenvMode.stop c4Forest true [1, 99]).2
      = [PEvent.terminate 2, PEvent.terminate 3, PEvent.terminate 4,
         PEvent.terminate 1, PEvent.wait 1] ∧
    PTree.findProcForest 99 c4Forest = none :=
  ⟨by decide,
    (c4_stop_tree_termination c4Forest [1, 99] (by decide)).1,
    (c4_stop_tree_termination c4Forest [1, 99] (by decide)).2.1,
    rfl, rfl⟩

/-!
## Claims about the log streamer
-/

/-- C6 counterexample: on the line `"[web\x1B[31mserver] ready"`, whose
`webserver` tag is split by an embedded ANSI escape, the escape-stripped
line does contain `webserver`, and processing the line with the stripping
done before matching (as the claim states) would emit it styled — yet the
code emits nothing, because it matches on the raw line and strips only
afterwards. -/
theorem c6_counterexample :
    processLine true false false "[web\x1B[31mserver] ready" = none ∧
    containsStr "webserver" (pyLower (stripAnsi "[web\x1B[31mserver] ready"))
      = true ∧
    processLineSpecOrder true false false "[web\x1B[31mserver] ready"
      = some (Emit.styled "[webserver] ready" "bold cyan") :=
  ⟨rfl, by decide, rfl⟩

/-- C6 amended: ANSI escape sequences are stripped from each line before it
is re-emitted (every emitted line is the escape-stripped one), but the
case-insensitive component matching is performed on the raw line, before
stripping. -/
theorem c6_amended_strip_after_match (w s t : Bool) (line : String) :
    ((processLine w s t line).isSome = matchesRawLine w s t line) ∧
    (∀ e, processLine w s t line = some e → e.text = stripAnsi line) := by
  constructor
  · simp only [processLine, matchesRawLine]
    cases hw : containsStr "webserver" (pyLower line) <;>
    cases hs : containsStr "scheduler" (pyLower line) <;>
    cases ht : containsStr "triggerer" (pyLower line) <;>
    cases w <;> cases s <;> cases t <;> simp
  · intro e h
    simp only [processLine] at h
    split at h
    · split at h
      · injection h with h
        subst h
        rfl
      · split at h
        · injection h with h
          subst h
          rfl
        · split at h
          · injection h with h
            subst h
            rfl
          · cases h
    · split at h
      · injection h with h
        subst h
        rfl
      · cases h

theorem c6_amended_strip_after_match_witness :
    ((processLine false false false "abc").isSome
      = matchesRawLine false false false "abc") ∧
    Emit.text (Emit.plain "abc") = stripAnsi "abc" :=
  ⟨(c6_amended_strip_after_match false false false "abc").1,
    (c6_amended_strip_after_match false false false "abc").2 (Emit.plain "abc")
      (by rfl)⟩

/-- C7: on the four log lines (each wrapped in ANSI color escapes),
streaming with only the webserver filter emits exactly the first line,
escape-stripped and recolored `bold cyan`; streaming with no filter emits
all four lines, escape-stripped. -/
theorem c7_log_filtering :
    streamLines true false false
        ["\x1B[1m[webserver] ready\x1B[0m", "\x1B[32m[scheduler] tick\x1B[0m",
         "\x1B[33m[triggerer] run\x1B[0m", "\x1B[2m[other] noise\x1B[0m"]
      = [Emit.styled "[webserver] ready" "bold cyan"] ∧
    streamLines false false false
        ["\x1B[1m[webserver] ready\x1B[0m", "\x1B[32m[scheduler] tick\x1B[0m",
         "\x1B[33m[triggerer] run\x1B[0m", "\x1B[2m[other] noise\x1B[0m"]
      = [Emit.plain "[webserver] ready", Emit.plain "[scheduler] tick",
         Emit.plain "[triggerer] run", Emit.plain "[other] noise"] :=
  ⟨rfl, rfl⟩

theorem c5_invalid_runtime_aborts_witness :
    (VenvState.mk true false).venvExists = true ∧
    (VenvState.mk true false).binPythonExists = false ∧
    verify_or_create_venv "3.11.4" true (VenvState.mk true false) "/p/.venv"
        false "3.11.4" =
      { result := .exit 0, state := VenvState.mk true false, events := [] } :=
  ⟨rfl, rfl,
    c5_invalid_runtime_aborts (VenvState.mk true false) "3.11.4" "/p/.venv"
      "3.11.4" true rfl rfl⟩
